import Mathlib

/-!
Shallow embedding of `src/dx_eventgen.py` (taiko5dx-eventgen): a compiler
from YAML event documents to the nested-block script text of the game editor.
Python dicts are modelled as association lists in insertion order, YAML
scalars as a small `Yaml` inductive, exceptions as `Except Err`.
-/

namespace DxEventgen

/-- The apostrophe character, used when rebuilding the Python error
message strings that quote keys. -/
def apos : String := String.singleton (Char.ofNat 39)

/-- Wraps a string in apostrophes, as the Python f-strings do with
literal quotes around interpolated keys. -/
def quo (s : String) : String := apos ++ s ++ apos

/-- Embeds the module constant `TAB = "\t"`. -/
def TAB : String := "\t"

/-- Embeds `dx_line`: `(TAB * level) + text + "\n"`. -/
def dx_line (level : Nat) (text : String) : String :=
  String.join (List.replicate level TAB) ++ text ++ "\n"

/-- YAML values as the Python code sees them after `yaml.safe_load`:
strings, integers, booleans, None, lists, and dicts (association lists
in insertion order, keys unique). -/
inductive Yaml where
  | str : String → Yaml
  | int : Int → Yaml
  | bool : Bool → Yaml
  | nil : Yaml
  | list : List Yaml → Yaml
  | map : List (String × Yaml) → Yaml

/-- Association-list lookup: the Python `d[k]` / `k in d` on dicts
(first binding wins; dict keys are unique anyway). -/
def alookup {α : Type} (k : String) : List (String × α) → Option α
  | [] => none
  | (a, v) :: rest => if k = a then some v else alookup k rest

/-- Python truthiness (`bool(x)` / `if x:`) on YAML values. -/
def pyTruthy : Yaml → Bool
  | .str s => s ≠ ""
  | .int n => n ≠ 0
  | .bool b => b
  | .nil => false
  | .list xs => !xs.isEmpty
  | .map kvs => !kvs.isEmpty

/-- Size of a value found by dict lookup is below the size of the dict,
needed for termination of the recursive script compiler. -/
theorem sizeOf_alookup {k : String} :
    ∀ {kvs : List (String × Yaml)} {v : Yaml},
      alookup k kvs = some v → sizeOf v < sizeOf (Yaml.map kvs)
  | [], _, h => by simp [alookup] at h
  | (a, w) :: rest, v, h => by
      by_cases hk : k = a
      · simp [alookup, hk] at h
        subst h
        simp
        omega
      · have h2 := @sizeOf_alookup k rest v (by simpa [alookup, hk] using h)
        simp at h2 ⊢
        omega

/-- Python repr of a YAML value, used by `str` on non-scalar values
(string escaping inside containers is not modelled). -/
def pyRepr : Yaml → String
  | .str s => quo s
  | .int n => toString n
  | .bool b => if b then "True" else "False"
  | .nil => "None"
  | .list xs =>
      "[" ++ String.intercalate ", "
        (xs.attach.map fun x => pyRepr x.1) ++ "]"
  | .map kvs =>
      "\x7b" ++ String.intercalate ", "
        (kvs.attach.map fun kv => quo kv.1.1 ++ ": " ++ pyRepr kv.1.2) ++ "\x7d"
decreasing_by
  · have := List.sizeOf_lt_of_mem x.2
    simp at this ⊢
    omega
  · obtain ⟨⟨a, b⟩, hmem⟩ := kv
    have := List.sizeOf_lt_of_mem hmem
    simp at this ⊢
    omega

/-- Python `str(x)` on YAML values. -/
def pyStr : Yaml → String
  | .str s => s
  | .int n => toString n
  | .bool b => if b then "True" else "False"
  | .nil => "None"
  | .list xs => pyRepr (.list xs)
  | .map kvs => pyRepr (.map kvs)

/-- Structured content of a `CompileError` as constructed in the source:
message, input file identifier, structural path (the Python class renders
these three into the exception text; we keep them separate). -/
structure CompileError where
  message : String
  input_file : String
  path : String
deriving DecidableEq, Repr

/-- Errors on the compile path: `CompileError` (caught in `main` as a
user/compile error, exit 2) or any other Python exception such as
`ValueError` from `int(...)` (caught as unexpected, exit 3). -/
inductive Err where
  | compile : CompileError → Err
  | valueError : String → Err
deriving DecidableEq, Repr

/-- Python `int(x)` on YAML values: ints pass through, booleans become
0/1, decimal strings parse, everything else raises `ValueError`. -/
def pyInt : Yaml → Except Err Int
  | .int n => .ok n
  | .bool b => .ok (if b then 1 else 0)
  | .str s =>
      match s.toInt? with
      | some n => .ok n
      | none => .error (.valueError ("invalid literal for int() with base 10: " ++ quo s))
  | _ => .error (.valueError "int() argument must be a string or a number")

/-- Python `line.replace("$", "")` for the one-character pattern used by
the narration/inner-thought emitters: removes every dollar sign. -/
def strip_dollar (s : String) : String :=
  String.mk (s.data.filter fun c => c ≠ Char.ofNat 36)

/-- A normalized similarity metric on strings, standing for
`difflib.SequenceMatcher.ratio` (a Python-library black box; the
development is parameterized over it). -/
def SimFn : Type := String → String → ℚ

/-- Descending lexicographic comparison on (score, string) pairs, the
order `heapq.nlargest` uses on the difflib `(ratio, candidate)` tuples. -/
def tuple_ge (a b : ℚ × String) : Bool :=
  decide (b.1 < a.1 ∨ (a.1 = b.1 ∧ b.2 ≤ a.2))

/-- Insertion step of a stable descending sort by `tuple_ge`. -/
def insert_desc (a : ℚ × String) : List (ℚ × String) → List (ℚ × String)
  | [] => [a]
  | b :: rest => if tuple_ge b a then b :: insert_desc a rest else a :: b :: rest

/-- Stable descending sort by `tuple_ge`; extensionally the
`sorted(result, reverse=True)` that `heapq.nlargest` is documented to
equal. -/
def sort_desc : List (ℚ × String) → List (ℚ × String)
  | [] => []
  | a :: rest => insert_desc a (sort_desc rest)

/-- Modelled from the Python standard library: `difflib.get_close_matches
(word, possibilities, n, cutoff)` keeps the possibilities whose ratio
against `word` reaches `cutoff` and returns the best `n` of them, best
first (ties broken by the tuple order on `(score, candidate)`);
parameterized by the ratio metric ` sim`. -/
def get_close_matches ( sim : SimFn) (word : String) (possibilities : List String)
    (n : Nat) (cutoff : ℚ) : List String :=
  let scored := (possibilities.filter fun x => decide (cutoff ≤ sim x word)).map
    fun x => ( sim x word, x)
  ((sort_desc scored).take n).map fun pr => pr.2

/-- Embeds `suggest_key`: up to 3 close matches at cutoff 0.6, rendered
as a " Did you mean: ..." suffix, empty when there is no match. -/
def suggest_key ( sim : SimFn) (key : String) (candidates : List String) : String :=
  let ms := get_close_matches sim key candidates 3 (3 / 5)
  if ms ≠ [] then " Did you mean: " ++ String.intercalate ", " ms ++ " ?"
  else ""

/-- Embeds the `EnumMaps` instance state after `__init__`: the five
category tables, each a key→resolved-string dict in insertion order.
The loader consults `enums/core/*.yaml` first and falls back to
`enums/*.yaml` per category (see `load_core_then_old`). -/
structure EnumMaps where
  towns : List (String × String)
  facilities : List (String × String)
  characters : List (String × String)
  gender : List (String × String)
  faction_types : List (String × String)

/-- Embeds the helper `load_core_then_old` inside `EnumMaps.__init__`:
load the primary (core) table; if it is non-empty return it, otherwise
load and return the legacy table. The returned boolean records whether
the legacy loader was invoked at all, making the short-circuit of the source
visible. -/
def load_core_then_old (core : List (String × String))
    (loadOld : Unit → List (String × String)) :
    List (String × String) × Bool :=
  if core ≠ [] then (core, false) else (loadOld (), true)

/-- Embeds `EnumMaps._map`: exact-match lookup of `str(key)` in one
category table; on a miss raises a CompileError whose message carries
the fuzzy suggestions. -/
def EnumMaps.map_lookup ( sim : SimFn) (mapping : List (String × String))
    (kind : String) (key : Yaml) (input_file path : String) : Except Err String :=
  let k := pyStr key
  match alookup k mapping with
  | some v => .ok v
  | none => .error (.compile
      ⟨"Unknown " ++ kind ++ " " ++ quo k ++ "." ++
        suggest_key sim k (mapping.map fun kv => kv.1),
       input_file, path⟩)

/-- Embeds `EnumMaps.town`. -/
def EnumMaps.town ( sim : SimFn) (m : EnumMaps) (key : Yaml)
    (input_file path : String) : Except Err String :=
  EnumMaps.map_lookup sim m.towns "town" key input_file path

/-- Embeds `EnumMaps.facility`. -/
def EnumMaps.facility ( sim : SimFn) (m : EnumMaps) (key : Yaml)
    (input_file path : String) : Except Err String :=
  EnumMaps.map_lookup sim m.facilities "facility" key input_file path

/-- Embeds `EnumMaps.character`. -/
def EnumMaps.character ( sim : SimFn) (m : EnumMaps) (key : Yaml)
    (input_file path : String) : Except Err String :=
  EnumMaps.map_lookup sim m.characters "character" key input_file path

/-- Embeds `EnumMaps.gender_value`. -/
def EnumMaps.gender_value ( sim : SimFn) (m : EnumMaps) (key : Yaml)
    (input_file path : String) : Except Err String :=
  EnumMaps.map_lookup sim m.gender "gender" key input_file path

/-- Embeds `EnumMaps.faction_type_value`. -/
def EnumMaps.faction_type_value ( sim : SimFn) (m : EnumMaps) (key : Yaml)
    (input_file path : String) : Except Err String :=
  EnumMaps.map_lookup sim m.faction_types "faction_type" key input_file path

/-- Embeds `emit_time_before_year_month`: before (Y,M) decomposed as
year<Y OR (year==Y AND month<M), as nested ＯＲ/ＡＮＤ blocks. -/
def emit_time_before_year_month (level : Nat) (year month : Int) : String :=
  dx_line level "ＯＲ調查:\x7b" ++
  dx_line (level + 1) ("調查:(狀況::年)<(" ++ toString year ++ ")") ++
  dx_line (level + 1) "ＡＮＤ調查:\x7b" ++
  dx_line (level + 2) ("調查:(狀況::年)==(" ++ toString year ++ ")") ++
  dx_line (level + 2) ("調查:(狀況::月)<(" ++ toString month ++ ")") ++
  dx_line (level + 1) "\x7d" ++
  dx_line level "\x7d"

/-- The `before_year_month` clause of `compile_require`: when present it
must be a dict with `year` and `month`, converted with `int(...)` and
emitted via `emit_time_before_year_month` at level 3; absent emits
nothing. -/
def require_bym (kvs : List (String × Yaml)) (input_file : String) : Except Err String :=
  match alookup "before_year_month" kvs with
  | none => pure ""
  | some (.map bkvs) =>
      match alookup "year" bkvs, alookup "month" bkvs with
      | some yv, some mv => do
          let year ← pyInt yv
          let month ← pyInt mv
          pure (emit_time_before_year_month 3 year month)
      | _, _ => Except.error (.compile
          ⟨"before_year_month requires " ++ quo "year" ++ " and " ++ quo "month" ++ ".",
           input_file, "require.before_year_month"⟩)
  | some _ => Except.error (.compile
      ⟨quo "before_year_month" ++ " must be an object.",
       input_file, "require.before_year_month"⟩)

/-- The `gender` clause of `compile_require`: resolved via the gender
category, emitted as an equality check on the protagonist gender field. -/
def require_gender ( sim : SimFn) (kvs : List (String × Yaml)) (maps : EnumMaps)
    (input_file : String) : Except Err String :=
  match alookup "gender" kvs with
  | none => pure ""
  | some gv => do
      let g ← EnumMaps.gender_value sim maps gv input_file "require.gender"
      pure (dx_line 3 ("調查:(人物::主角.性別)==(" ++ g ++ ")"))

/-- The `no_task` clause of `compile_require`: a truthy value emits the
fixed no-active-task equality line. -/
def require_no_task (kvs : List (String × Yaml)) : String :=
  if pyTruthy ((alookup "no_task" kvs).getD (.bool false)) then
    dx_line 3 "調查:(人物::主角.主命狀態)==(無主命)"
  else ""

/-- The `faction_type` clause of `compile_require`: resolved via the
faction_types category, emitted as an equality check. -/
def require_faction ( sim : SimFn) (kvs : List (String × Yaml)) (maps : EnumMaps)
    (input_file : String) : Except Err String :=
  match alookup "faction_type" kvs with
  | none => pure ""
  | some fv => do
      let ft ← EnumMaps.faction_type_value sim maps fv input_file "require.faction_type"
      pure (dx_line 3 ("調查:(人物::主角.所屬勢力類型)==(" ++ ft ++ ")"))

/-- The `money_gt` clause of `compile_require`: converted with `int(...)`
and emitted as a greater-than check on held money. -/
def require_money (kvs : List (String × Yaml)) (input_file : String) : Except Err String :=
  match alookup "money_gt" kvs with
  | none => pure ""
  | some mv => do
      let mg ← pyInt mv
      pure (dx_line 3 ("調查:(主角.持有金)>(" ++ toString mg ++ ")"))

/-- Embeds `compile_require`: None yields the empty block, a non-dict is
a CompileError, and each of the five recognized keys, when present,
appends its condition lines in source order (before_year_month, gender,
no_task, faction_type, money_gt); other keys are not consulted. -/
def compile_require ( sim : SimFn) (require : Yaml) (maps : EnumMaps)
    (input_file : String) : Except Err String :=
  match require with
  | .nil => .ok ""
  | .map kvs => do
      let bymPart ← require_bym kvs input_file
      let genderPart ← require_gender sim kvs maps input_file
      let noTaskPart := require_no_task kvs
      let factionPart ← require_faction sim kvs maps input_file
      let moneyPart ← require_money kvs input_file
      pure (bymPart ++ genderPart ++ noTaskPart ++ factionPart ++ moneyPart)
  | _ => Except.error (.compile
      ⟨quo "require" ++ " must be an object.", input_file, "require"⟩)

/-- Embeds the first (validation) loop of the `choice` branch of
`compile_script_block`: checks every option is a dict carrying `label`
and `do`, and collects `str(opt["label"])` in order. -/
def collect_labels (opts : List Yaml) (oi : Nat) (input_file p : String) :
    Except Err (List String) :=
  match opts with
  | [] => .ok []
  | opt :: rest =>
      let op := p ++ ".choice.options[" ++ toString oi ++ "]"
      match opt with
      | .map okvs =>
          match alookup "label" okvs with
          | none => .error (.compile ⟨"Missing option.label", input_file, op ++ ".label"⟩)
          | some lv =>
              if (alookup "do" okvs).isSome then
                match collect_labels rest (oi + 1) input_file p with
                | .ok ls => .ok (pyStr lv :: ls)
                | .error e => .error e
              else .error (.compile ⟨"Missing option.do", input_file, op ++ ".do"⟩)
      | _ => .error (.compile ⟨"Each option must be an object.", input_file, op⟩)

/-- Embeds the `say` branch of `compile_script_block`: shape check, the
three required sub-fields in order, speaker/listener resolved via the
characters category, then one dialogue line. -/
def compile_say ( sim : SimFn) (sayv : Yaml) (maps : EnumMaps)
    (input_file p : String) (level : Nat) : Except Err String :=
  match sayv with
  | .map skvs =>
      match alookup "speaker" skvs with
      | none => .error (.compile
          ⟨"Missing " ++ quo "speaker" ++ " in say.", input_file, p ++ ".say.speaker"⟩)
      | some spv =>
      match alookup "listener" skvs with
      | none => .error (.compile
          ⟨"Missing " ++ quo "listener" ++ " in say.", input_file, p ++ ".say.listener"⟩)
      | some lsv =>
      match alookup "text" skvs with
      | none => .error (.compile
          ⟨"Missing " ++ quo "text" ++ " in say.", input_file, p ++ ".say.text"⟩)
      | some txv => do
          let sp ← EnumMaps.character sim maps spv input_file (p ++ ".say.speaker")
          let ls ← EnumMaps.character sim maps lsv input_file (p ++ ".say.listener")
          pure (dx_line level ("對話:(" ++ sp ++ "," ++ ls ++ ")[[" ++ pyStr txv ++ "]]"))
  | _ => .error (.compile ⟨quo "say" ++ " must be an object.", input_file, p ++ ".say"⟩)

/-- Embeds the `rename_say` branch of `compile_script_block`: shape
check, the five required sub-fields in order, speaker/listener resolved,
literal surname/name override, then one renamed-dialogue line. -/
def compile_rename_say ( sim : SimFn) (rsv : Yaml) (maps : EnumMaps)
    (input_file p : String) (level : Nat) : Except Err String :=
  match rsv with
  | .map rkvs =>
      match alookup "speaker" rkvs with
      | none => .error (.compile
          ⟨"Missing " ++ quo "speaker" ++ " in rename_say.", input_file, p ++ ".rename_say.speaker"⟩)
      | some spv =>
      match alookup "listener" rkvs with
      | none => .error (.compile
          ⟨"Missing " ++ quo "listener" ++ " in rename_say.", input_file, p ++ ".rename_say.listener"⟩)
      | some lsv =>
      match alookup "surname" rkvs with
      | none => .error (.compile
          ⟨"Missing " ++ quo "surname" ++ " in rename_say.", input_file, p ++ ".rename_say.surname"⟩)
      | some suv =>
      match alookup "name" rkvs with
      | none => .error (.compile
          ⟨"Missing " ++ quo "name" ++ " in rename_say.", input_file, p ++ ".rename_say.name"⟩)
      | some nmv =>
      match alookup "text" rkvs with
      | none => .error (.compile
          ⟨"Missing " ++ quo "text" ++ " in rename_say.", input_file, p ++ ".rename_say.text"⟩)
      | some txv => do
          let sp ← EnumMaps.character sim maps spv input_file (p ++ ".rename_say.speaker")
          let ls ← EnumMaps.character sim maps lsv input_file (p ++ ".rename_say.listener")
          pure (dx_line level ("變名對話:(" ++ sp ++ "," ++ ls ++ ",[[" ++ pyStr suv ++
            "]],[[" ++ pyStr nmv ++ "]])[[" ++ pyStr txv ++ "]]"))
  | _ => .error (.compile ⟨quo "rename_say" ++ " must be an object.", input_file, p ++ ".rename_say"⟩)

mutual

/-- Embeds `compile_script_block`: rejects a non-list script value, then
compiles the command sequence from index 0. -/
def compile_script_block ( sim : SimFn) (script : Yaml) (maps : EnumMaps)
    (input_file base_path : String) (level : Nat) : Except Err String :=
  match script with
  | .list cmds => compile_cmds sim cmds 0 maps input_file base_path level
  | _ => .error (.compile ⟨"Script block must be a list.", input_file, base_path⟩)
termination_by sizeOf script
decreasing_by
  simp_wf
  all_goals simp
  all_goals omega

/-- The `for i, cmd in enumerate(script)` loop of `compile_script_block`,
concatenating the emission of each command and aborting on the first error. -/
def compile_cmds ( sim : SimFn) (cmds : List Yaml) (i : Nat) (maps : EnumMaps)
    (input_file base_path : String) (level : Nat) : Except Err String :=
  match cmds with
  | [] => .ok ""
  | cmd :: rest => do
      let line ← compile_one sim cmd maps input_file
        (base_path ++ "[" ++ toString i ++ "]") level
      let out ← compile_cmds sim rest (i + 1) maps input_file base_path level
      pure (line ++ out)
termination_by sizeOf cmds
decreasing_by
  all_goals simp_wf
  all_goals try simp
  all_goals omega

/-- One iteration of the command loop of `compile_script_block`: the
elif chain over narration, hero_think, say, rename_say and choice
membership, ending in the unknown-command error. -/
def compile_one ( sim : SimFn) (cmd : Yaml) (maps : EnumMaps)
    (input_file p : String) (level : Nat) : Except Err String :=
  match cmd with
  | .map kvs =>
      match alookup "narration" kvs with
      | some tv => .ok (dx_line level (strip_dollar ("旁白:[[$" ++ pyStr tv ++ "]]")))
      | none =>
      match alookup "hero_think" kvs with
      | some tv => .ok (dx_line level (strip_dollar ("自言自語:[[$" ++ pyStr tv ++ "]]")))
      | none =>
      match alookup "say" kvs with
      | some sayv => compile_say sim sayv maps input_file p level
      | none =>
      match alookup "rename_say" kvs with
      | some rsv => compile_rename_say sim rsv maps input_file p level
      | none =>
      match h5 : alookup "choice" kvs with
      | some (.map ckvs) =>
          match h6 : alookup "options" ckvs with
          | some (.list options) => do
              let labels ← collect_labels options 0 input_file p
              let out2 ← compile_options sim options 0 maps input_file p level
              pure (dx_line level ("選擇:(" ++
                String.join (labels.map fun lb => "[[" ++ lb ++ "]]") ++ ")") ++ out2)
          | _ => .error (.compile
              ⟨"choice.options must be a list.", input_file, p ++ ".choice.options"⟩)
      | some _ => .error (.compile
          ⟨quo "choice" ++ " must be an object.", input_file, p ++ ".choice"⟩)
      | none => .error (.compile
          ⟨"Unknown script command. Expected one of: narration, hero_think, say, rename_say, choice",
           input_file, p⟩)
  | _ => .error (.compile ⟨"Each script entry must be an object.", input_file, p⟩)
termination_by sizeOf cmd
decreasing_by
  simp_wf
  have a2 := sizeOf_alookup h5
  have a1 := sizeOf_alookup h6
  simp at a1 a2 ⊢
  omega

/-- Embeds the second (emission) loop of the `choice` branch: per option
a branch-open line, the recursively compiled body one level deeper, and
a closing brace at the choice level. The `valueError` arms model the
KeyError/TypeError Python would raise on a malformed option, which the
validation loop has already excluded when this loop runs. -/
def compile_options ( sim : SimFn) (opts : List Yaml) (oi : Nat) (maps : EnumMaps)
    (input_file p : String) (level : Nat) : Except Err String :=
  match opts with
  | [] => .ok ""
  | opt :: rest =>
      let op := p ++ ".choice.options[" ++ toString oi ++ "]"
      match opt with
      | .map okvs =>
          match alookup "label" okvs with
          | some lv =>
              match hd : alookup "do" okvs with
              | some dov => do
                  let body ← compile_script_block sim dov maps input_file
                    (op ++ ".do") (level + 1)
                  let out ← compile_options sim rest (oi + 1) maps input_file p level
                  pure (dx_line level ("分歧:([[" ++ pyStr lv ++ "]])" ++ "\x7b") ++
                    body ++ dx_line level "\x7d" ++ out)
              | none => .error (.valueError "KeyError: do")
          | none => .error (.valueError "KeyError: label")
      | _ => .error (.valueError "option is not a dict")
termination_by sizeOf opts
decreasing_by
  · simp_wf
    have a1 := sizeOf_alookup hd
    simp at a1 ⊢
    omega
  · simp_wf
    all_goals simp
    all_goals omega

end

/-- The fixed output envelope assembled at the end of `generate_event`:
literal header, chapter wrapper, event wrapper with optional run-once
attribute, occurrence line, condition block and script block. -/
def event_envelope (event_name : String) (once : Bool)
    (town facility require_block script_block : String) : String :=
  "太閣立志傳５事件原始碼\n" ++
  "章節:\x7b\n" ++
  dx_line 1 ("事件:" ++ event_name ++ "\x7b") ++
  (if once then dx_line 2 "屬性:僅限一次" else "") ++
  dx_line 2 ("發生時機:室內畫面顯示後(" ++ town ++ "," ++ facility ++ ")") ++
  dx_line 2 "發生條件:\x7b" ++
  require_block ++
  dx_line 2 "\x7d" ++
  dx_line 2 "腳本:\x7b" ++
  script_block ++
  dx_line 2 "\x7d" ++
  dx_line 1 "\x7d" ++
  "\x7d\n"

/-- Embeds `generate_event`: root checks, trigger checks (`town` and
`facility`), once defaulting to true, trigger resolution, requirement
and script compilation (script defaulting to the empty list), and the
envelope assembly. -/
def generate_event ( sim : SimFn) (data : Yaml) (maps : EnumMaps)
    (input_file : String) : Except Err String :=
  match data with
  | .map kvs =>
      match alookup "event_name" kvs with
      | none => .error (.compile
          ⟨"Missing required field " ++ quo "event_name" ++ ".", input_file, "event_name"⟩)
      | some env =>
      match alookup "trigger" kvs with
      | none => .error (.compile
          ⟨"Missing required field " ++ quo "trigger" ++ ".", input_file, "trigger"⟩)
      | some (.map tkvs) =>
          match alookup "town" tkvs, alookup "facility" tkvs with
          | some townv, some facv => do
              let once := pyTruthy ((alookup "once" kvs).getD (.bool true))
              let town ← EnumMaps.town sim maps townv input_file "trigger.town"
              let facility ← EnumMaps.facility sim maps facv input_file "trigger.facility"
              let require_block ← compile_require sim
                ((alookup "require" kvs).getD .nil) maps input_file
              let script_block ← compile_script_block sim
                ((alookup "script" kvs).getD (.list [])) maps input_file "script" 3
              pure (event_envelope (pyStr env) once town facility require_block script_block)
          | _, _ => .error (.compile
              ⟨"trigger requires " ++ quo "town" ++ " and " ++ quo "facility" ++ ".",
               input_file, "trigger"⟩)
      | some _ => .error (.compile
          ⟨quo "trigger" ++ " must be an object.", input_file, "trigger"⟩)
  | _ => .error (.compile ⟨"Root YAML must be an object.", input_file, "$"⟩)

/-- Observable outcome of one `main` run: the process exit code and the
content written to the output file, if any. -/
structure MainResult where
  exit_code : Nat
  written : Option String
deriving DecidableEq, Repr

/-- Embeds the `try` block of `main` after argument parsing: `parsed`
stands for the outcome of building the enum maps and `yaml.safe_load`
(both precede generation and write nothing); the event text is
generated, and only on success is the output file written. A
`CompileError` exits with code 2, any other exception with code 3,
neither writing anything. -/
def compile_pipeline ( sim : SimFn) (parsed : Except Err Yaml) (maps : EnumMaps)
    (input_file : String) : Except Err String := do
  let data ← parsed
  generate_event sim data maps input_file

/-- Dispatch of `main` on the pipeline outcome, as above. -/
def main_model ( sim : SimFn) (parsed : Except Err Yaml) (maps : EnumMaps)
    (input_file : String) : MainResult :=
  match compile_pipeline sim parsed maps input_file with
  | .ok s => ⟨0, some s⟩
  | .error (.compile _) => ⟨2, none⟩
  | .error (.valueError _) => ⟨3, none⟩

/-! Shared helper definitions for concrete instances, and general lemmas. -/

/-- A trivial similarity metric used to instantiate the parameterized
development on concrete runs. -/
def sim0 : SimFn := fun _ _ => 0

/-- A small concrete registry used for concrete runs. -/
def maps0 : EnumMaps :=
  ⟨[("Kyoto", "京都")], [("Inn", "宿屋")], [("Hero", "主角"), ("Oda", "織田信長")],
   [("Male", "男")], [("Ronin", "浪人")]⟩

/-- Looking up a key distinct from an inserted binding ignores it. -/
theorem alookup_middle {α : Type} (key k : String) (v : α)
    (pre post : List (String × α)) (h : key ≠ k) :
    alookup key (pre ++ (k, v) :: post) = alookup key (pre ++ post) := by
  induction pre with
  | nil => simp [alookup, h]
  | cons hd tl ih =>
      obtain ⟨a, w⟩ := hd
      by_cases hk : key = a <;> simp [alookup, hk, ih]

/-- Appending a binding for a different key does not change a lookup. -/
theorem alookup_append_single_ne {α : Type} (key k : String) (v : α)
    (l : List (String × α)) (h : key ≠ k) :
    alookup key (l ++ [(k, v)]) = alookup key l := by
  induction l with
  | nil => simp [alookup, h]
  | cons hd tl ih =>
      obtain ⟨a, w⟩ := hd
      by_cases hk : key = a <;> simp [alookup, hk, ih]

/-- Appending a binding for an absent key makes the lookup find it. -/
theorem alookup_append_single_self {α : Type} (k : String) (v : α)
    (l : List (String × α)) (h : alookup k l = none) :
    alookup k (l ++ [(k, v)]) = some v := by
  induction l with
  | nil => simp [alookup]
  | cons hd tl ih =>
      obtain ⟨a, w⟩ := hd
      by_cases hk : k = a
      · simp [alookup, hk] at h
      · simp [alookup, hk] at h ⊢
        exact ih h

/-- Removing dollar signs distributes over concatenation. -/
theorem strip_dollar_append (a b : String) :
    strip_dollar (a ++ b) = strip_dollar a ++ strip_dollar b := by
  unfold strip_dollar
  rw [String.data_append, List.filter_append]
  rfl

/-- C8: a non-empty primary (core) category table is returned as loaded,
with the legacy loader never invoked; the legacy table is consulted
exactly when the primary one is missing or empty. -/
theorem C8_primary_precedence (core : List (String × String))
    (loadOld : Unit → List (String × String)) :
    (core ≠ [] → load_core_then_old core loadOld = (core, false)) ∧
    (core = [] → load_core_then_old core loadOld = (loadOld (), true)) := by
  constructor <;> intro h <;> simp [load_core_then_old, h]

/-- Witness for C8 at a concrete non-empty primary table. -/
theorem C8_primary_precedence_witness :
    load_core_then_old [("Kyoto", "京都")] (fun _ => [("Edo", "江戶")]) =
      ([("Kyoto", "京都")], false) :=
  (C8_primary_precedence [("Kyoto", "京都")] (fun _ => [("Edo", "江戶")])).1 (by simp)

/-- C6: if any step of the pipeline fails, `main` writes no output file
and exits nonzero; the output file is written exactly on success, and
then carries the complete generated text. -/
theorem C6_atomicity ( sim : SimFn) (parsed : Except Err Yaml) (maps : EnumMaps)
    (input_file : String) :
    (∀ e, compile_pipeline sim parsed maps input_file = .error e →
      (main_model sim parsed maps input_file).written = none ∧
      (main_model sim parsed maps input_file).exit_code ≠ 0) ∧
    (∀ s, (main_model sim parsed maps input_file).written = some s →
      compile_pipeline sim parsed maps input_file = .ok s ∧
      (main_model sim parsed maps input_file).exit_code = 0) := by
  cases h : compile_pipeline sim parsed maps input_file with
  | ok s =>
      constructor
      · intro e he
        exact absurd he (by simp)
      · intro s' hs
        simp [main_model, h] at hs ⊢
        exact hs
  | error e =>
      cases e with
      | compile ce =>
          constructor
          · intro e' _
            simp [main_model, h]
          · intro s' hs
            simp [main_model, h] at hs
      | valueError m =>
          constructor
          · intro e' _
            simp [main_model, h]
          · intro s' hs
            simp [main_model, h] at hs

/-- Witness for C6 at a concrete failing input (empty root mapping:
missing `event_name`). -/
theorem C6_atomicity_witness :
    (main_model sim0 (.ok (.map [])) maps0 "in.yaml").written = none ∧
    (main_model sim0 (.ok (.map [])) maps0 "in.yaml").exit_code ≠ 0 :=
  (C6_atomicity sim0 (.ok (.map [])) maps0 "in.yaml").1
    (.compile ⟨"Missing required field " ++ quo "event_name" ++ ".", "in.yaml", "event_name"⟩)
    rfl

/-- C9: a `require` key outside the five recognized ones contributes no
condition line and no error: compilation proceeds exactly as if the key
were absent, wherever in the mapping it sits. -/
theorem C9_unrecognized_require_keys ( sim : SimFn) (maps : EnumMaps) (input_file : String)
    (pre post : List (String × Yaml)) (k : String) (v : Yaml)
    (hk : k ∉ (["before_year_month", "gender", "no_task", "faction_type",
      "money_gt"] : List String)) :
    compile_require sim (.map (pre ++ (k, v) :: post)) maps input_file =
    compile_require sim (.map (pre ++ post)) maps input_file := by
  simp only [List.mem_cons, List.mem_singleton] at hk
  push_neg at hk
  obtain ⟨h1, h2, h3, h4, h5, -⟩ := hk
  simp only [compile_require, require_bym, require_gender, require_no_task,
    require_faction, require_money]
  rw [alookup_middle "before_year_month" k v pre post (fun hc => h1 hc.symm),
    alookup_middle "gender" k v pre post (fun hc => h2 hc.symm),
    alookup_middle "no_task" k v pre post (fun hc => h3 hc.symm),
    alookup_middle "faction_type" k v pre post (fun hc => h4 hc.symm),
    alookup_middle "money_gt" k v pre post (fun hc => h5 hc.symm)]

/-- Witness for C9: a misspelled requirement key compiles as if absent. -/
theorem C9_unrecognized_require_keys_witness :
    compile_require sim0 (.map ([] ++ ("facton_type", .str "Ronin") :: [])) maps0 "in.yaml" =
    compile_require sim0 (.map ([] ++ [])) maps0 "in.yaml" :=
  C9_unrecognized_require_keys sim0 maps0 "in.yaml" [] [] "facton_type" (.str "Ronin")
    (by simp)

/-- Inserting into the descending sort permutes a cons. -/
theorem insert_desc_perm (a : ℚ × String) (l : List (ℚ × String)) :
    (insert_desc a l).Perm (a :: l) := by
  induction l with
  | nil => exact List.Perm.refl _
  | cons b rest ih =>
      by_cases h : tuple_ge b a
      · simpa [insert_desc, h] using (ih.cons b).trans (List.Perm.swap a b rest)
      · simp [insert_desc, h]

/-- The descending sort is a permutation of its input. -/
theorem sort_desc_perm (l : List (ℚ × String)) : (sort_desc l).Perm l := by
  induction l with
  | nil => exact List.Perm.refl _
  | cons a rest ih => exact (insert_desc_perm a (sort_desc rest)).trans (ih.cons a)

/-- The descending tuple order is total. -/
theorem tuple_ge_total (a b : ℚ × String) :
    tuple_ge a b = true ∨ tuple_ge b a = true := by
  simp only [tuple_ge, decide_eq_true_eq]
  rcases lt_trichotomy a.1 b.1 with h | h | h
  · right; left; exact h
  · rcases le_total a.2 b.2 with h2 | h2
    · right; right; exact ⟨h.symm, h2⟩
    · left; right; exact ⟨h, h2⟩
  · left; left; exact h

/-- The descending tuple order is transitive. -/
theorem tuple_ge_trans (a b c : ℚ × String)
    (h1 : tuple_ge a b = true) (h2 : tuple_ge b c = true) : tuple_ge a c = true := by
  simp only [tuple_ge, decide_eq_true_eq] at h1 h2 ⊢
  rcases h1 with h1 | ⟨h1a, h1b⟩ <;> rcases h2 with h2 | ⟨h2a, h2b⟩
  · left; exact h2.trans h1
  · left; rwa [← h2a]
  · left; rwa [h1a]
  · right; exact ⟨h1a.trans h2a, h2b.trans h1b⟩

/-- Insertion preserves sortedness for the descending tuple order. -/
theorem pairwise_insert_desc (a : ℚ × String) (l : List (ℚ × String))
    (hl : l.Pairwise (fun x y => tuple_ge x y = true)) :
    (insert_desc a l).Pairwise (fun x y => tuple_ge x y = true) := by
  induction l with
  | nil => simp [insert_desc]
  | cons b rest ih =>
      rcases List.pairwise_cons.mp hl with ⟨hb, hrest⟩
      by_cases h : tuple_ge b a
      · rw [insert_desc, if_pos h]
        refine List.pairwise_cons.mpr ⟨?_, ih hrest⟩
        intro x hx
        rcases List.mem_cons.mp ((insert_desc_perm a rest).mem_iff.mp hx) with rfl | hx'
        · exact h
        · exact hb x hx'
      · rw [insert_desc, if_neg h]
        have hab : tuple_ge a b = true := by
          rcases tuple_ge_total a b with h' | h'
          · exact h'
          · exact absurd h' h
        refine List.pairwise_cons.mpr ⟨?_, hl⟩
        intro x hx
        rcases List.mem_cons.mp hx with rfl | hx'
        · exact hab
        · exact tuple_ge_trans a b x hab (hb x hx')

/-- The descending sort is sorted for the descending tuple order. -/
theorem pairwise_sort_desc (l : List (ℚ × String)) :
    (sort_desc l).Pairwise (fun x y => tuple_ge x y = true) := by
  induction l with
  | nil => simp [sort_desc]
  | cons a rest ih => exact pairwise_insert_desc a (sort_desc rest) ih

/-- Every scored pair the matcher keeps comes from the candidate list,
carries its own similarity as score, and meets the cutoff. -/
theorem mem_scored ( sim : SimFn) (word : String) (possibilities : List String)
    (cutoff : ℚ) (pr : ℚ × String)
    (hpr : pr ∈ (possibilities.filter fun x => decide (cutoff ≤ sim x word)).map
      fun x => ( sim x word, x)) :
    pr.2 ∈ possibilities ∧ pr.1 = sim pr.2 word ∧ cutoff ≤ sim pr.2 word := by
  rcases List.mem_map.mp hpr with ⟨x, hx, rfl⟩
  rcases List.mem_filter.mp hx with ⟨hx1, hx2⟩
  exact ⟨hx1, rfl, by simpa using hx2⟩

/-- C7: for every similarity metric, key, and candidate list, the close
matches are at most 3, all drawn from the candidates, each with
similarity at least 0.6 against the key, ordered most-similar first. -/
theorem C7_suggestion_quality ( sim : SimFn) (key : String) (candidates : List String) :
    (get_close_matches sim key candidates 3 (3 / 5)).length ≤ 3 ∧
    (∀ x ∈ get_close_matches sim key candidates 3 (3 / 5), x ∈ candidates) ∧
    (∀ x ∈ get_close_matches sim key candidates 3 (3 / 5), (3 : ℚ) / 5 ≤ sim x key) ∧
    List.Pairwise (fun x y => sim y key ≤ sim x key)
      (get_close_matches sim key candidates 3 (3 / 5)) := by
  have hmem : ∀ pr ∈ (sort_desc ((candidates.filter fun x =>
      decide ((3 : ℚ) / 5 ≤ sim x key)).map fun x => ( sim x key, x))).take 3,
      pr.2 ∈ candidates ∧ pr.1 = sim pr.2 key ∧ (3 : ℚ) / 5 ≤ sim pr.2 key := by
    intro pr hpr
    have h1 : pr ∈ sort_desc ((candidates.filter fun x =>
        decide ((3 : ℚ) / 5 ≤ sim x key)).map fun x => ( sim x key, x)) :=
      (List.take_sublist 3 _).mem hpr
    exact mem_scored sim key candidates (3 / 5) pr ((sort_desc_perm _).mem_iff.mp h1)
  refine ⟨?_, ?_, ?_, ?_⟩
  · simpa [get_close_matches] using List.length_take_le 3 _
  · intro x hx
    simp only [get_close_matches] at hx
    rcases List.mem_map.mp hx with ⟨pr, hpr, rfl⟩
    exact (hmem pr hpr).1
  · intro x hx
    simp only [get_close_matches] at hx
    rcases List.mem_map.mp hx with ⟨pr, hpr, rfl⟩
    exact (hmem pr hpr).2.2
  · rw [get_close_matches]
    refine List.pairwise_map.mpr ?_
    have hsorted := (pairwise_sort_desc ((candidates.filter fun x =>
        decide ((3 : ℚ) / 5 ≤ sim x key)).map fun x => ( sim x key, x))).sublist
      (List.take_sublist 3 _)
    refine hsorted.imp_of_mem ?_
    intro a b ha hb hge
    have hga := (hmem a ha).2.1
    have hgb := (hmem b hb).2.1
    rw [← hga, ← hgb]
    simp only [tuple_ge, decide_eq_true_eq] at hge
    rcases hge with h | ⟨h, -⟩
    · exact le_of_lt h
    · exact le_of_eq h.symm

/-- Witness for C7 at a concrete metric and candidate list. -/
theorem C7_suggestion_quality_witness :
    (get_close_matches (fun _ _ => 1) "Kyotoo" ["Kyoto", "Edo"] 3 (3 / 5)).length ≤ 3 :=
  (C7_suggestion_quality (fun _ _ => 1) "Kyotoo" ["Kyoto", "Edo"]).1

/-- Decomposition of a successful bind in the `Except Err` monad. -/
theorem except_bind_ok {α β : Type} (X : Except Err α) (f : α → Except Err β) (b : β)
    (h : X >>= f = .ok b) : ∃ a, X = .ok a ∧ f a = .ok b := by
  cases X with
  | ok a => exact ⟨a, rfl, by simpa [Bind.bind, Except.bind] using h⟩
  | error e => simp [Bind.bind, Except.bind] at h

/-- C4: whenever a require clause carries `before_year_month` with
integer year Y and month M and compilation succeeds, the emitted block
starts with the disjunction block for before(Y,M): a year-less-than line
and a nested conjunction block of year-equals and month-less-than, at
levels 3, 4 and 5 of nesting. -/
theorem C4_before_year_month ( sim : SimFn) (maps : EnumMaps) (input_file : String)
    (kvs : List (String × Yaml)) (Y M : Int) (s : String)
    (hbym : alookup "before_year_month" kvs =
      some (.map [("year", .int Y), ("month", .int M)]))
    (hok : compile_require sim (.map kvs) maps input_file = .ok s) :
    (∃ rest, s = emit_time_before_year_month 3 Y M ++ rest) ∧
    emit_time_before_year_month 3 Y M =
      dx_line 3 "ＯＲ調查:\x7b" ++
      dx_line 4 ("調查:(狀況::年)<(" ++ toString Y ++ ")") ++
      dx_line 4 "ＡＮＤ調查:\x7b" ++
      dx_line 5 ("調查:(狀況::年)==(" ++ toString Y ++ ")") ++
      dx_line 5 ("調查:(狀況::月)<(" ++ toString M ++ ")") ++
      dx_line 4 "\x7d" ++
      dx_line 3 "\x7d" := by
  refine ⟨?_, rfl⟩
  simp only [compile_require] at hok
  rcases except_bind_ok _ _ _ hok with ⟨b1, hb1, hok2⟩
  rcases except_bind_ok _ _ _ hok2 with ⟨g, hg, hok3⟩
  rcases except_bind_ok _ _ _ hok3 with ⟨ft, hft, hok4⟩
  rcases except_bind_ok _ _ _ hok4 with ⟨mg, hmg, hok5⟩
  simp only [require_bym] at hb1
  rw [hbym] at hb1
  simp [alookup, pyInt, Bind.bind, Except.bind, Pure.pure, Except.pure] at hb1
  simp [Pure.pure, Except.pure] at hok5
  subst hb1
  exact ⟨g ++ (require_no_task kvs ++ (ft ++ mg)),
    by rw [← hok5]; simp [String.append_assoc]⟩

/-- Witness for C4 at the concrete example {year: 1560, month: 6}. -/
theorem C4_before_year_month_witness :
    (∃ rest, emit_time_before_year_month 3 1560 6 =
      emit_time_before_year_month 3 1560 6 ++ rest) ∧
    emit_time_before_year_month 3 1560 6 =
      dx_line 3 "ＯＲ調查:\x7b" ++
      dx_line 4 ("調查:(狀況::年)<(" ++ toString (1560 : Int) ++ ")") ++
      dx_line 4 "ＡＮＤ調查:\x7b" ++
      dx_line 5 ("調查:(狀況::年)==(" ++ toString (1560 : Int) ++ ")") ++
      dx_line 5 ("調查:(狀況::月)<(" ++ toString (6 : Int) ++ ")") ++
      dx_line 4 "\x7d" ++
      dx_line 3 "\x7d" :=
  C4_before_year_month sim0 maps0 "in.yaml"
    [("before_year_month", .map [("year", .int 1560), ("month", .int 6)])]
    1560 6 (emit_time_before_year_month 3 1560 6) rfl rfl

/-- C5 counterexample: the narration emitter strips dollar signs out of
the literal text, so the text is not embedded unchanged for every
possible string: "a$b" comes out as "ab". -/
theorem C5_narration_counterexample :
    compile_script_block sim0 (.list [.map [("narration", .str "a$b")]]) maps0
      "in.yaml" "script" 3 = .ok (dx_line 3 "旁白:[[ab]]") ∧
    dx_line 3 "旁白:[[ab]]" ≠ dx_line 3 "旁白:[[a$b]]" := by
  constructor
  · simp [compile_script_block, compile_cmds, compile_one, alookup, pyStr, strip_dollar]
    rfl
  · decide

/-- C5 amended: a Narration or InnerThought node resolves no symbol (the
output does not depend on the registry) and emits exactly one line
wrapping the node text with every dollar sign removed; the text is
embedded unchanged exactly when it contains no dollar sign. -/
theorem C5_narration_literal_amended ( sim : SimFn) (maps : EnumMaps)
    (input_file base_path : String) (level : Nat) (text : String) :
    compile_script_block sim (.list [.map [("narration", .str text)]]) maps
      input_file base_path level =
      .ok (dx_line level ("旁白:[[" ++ strip_dollar text ++ "]]")) ∧
    compile_script_block sim (.list [.map [("hero_think", .str text)]]) maps
      input_file base_path level =
      .ok (dx_line level ("自言自語:[[" ++ strip_dollar text ++ "]]")) := by
  have h1 : strip_dollar ("旁白:[[$" ++ text ++ "]]") =
      "旁白:[[" ++ strip_dollar text ++ "]]" := by
    rw [strip_dollar_append, strip_dollar_append,
      show strip_dollar "旁白:[[$" = "旁白:[[" from rfl,
      show strip_dollar "]]" = "]]" from rfl]
  have h2 : strip_dollar ("自言自語:[[$" ++ text ++ "]]") =
      "自言自語:[[" ++ strip_dollar text ++ "]]" := by
    rw [strip_dollar_append, strip_dollar_append,
      show strip_dollar "自言自語:[[$" = "自言自語:[[" from rfl,
      show strip_dollar "]]" = "]]" from rfl]
  constructor <;>
    simp [compile_script_block, compile_cmds, compile_one, alookup, pyStr, h1, h2,
      Bind.bind, Except.bind, Pure.pure, Except.pure]

/-- Witness for C5 amended at a concrete text. -/
theorem C5_narration_literal_amended_witness :
    compile_script_block sim0 (.list [.map [("narration", .str "Hello")]]) maps0
      "in.yaml" "script" 3 =
      .ok (dx_line 3 ("旁白:[[" ++ strip_dollar "Hello" ++ "]]")) ∧
    compile_script_block sim0 (.list [.map [("hero_think", .str "Hello")]]) maps0
      "in.yaml" "script" 3 =
      .ok (dx_line 3 ("自言自語:[[" ++ strip_dollar "Hello" ++ "]]")) :=
  C5_narration_literal_amended sim0 maps0 "in.yaml" "script" 3 "Hello"

/-- C2 counterexample: a script node tagged `bgm` is rejected as an
unknown command (there is no audio-cue handling and no bgm/sfx category
in the registry), where the claim expected one resolved audio line. -/
theorem C2_audio_cue_counterexample :
    compile_script_block sim0 (.list [.map [("bgm", .str "battle")]]) maps0
      "in.yaml" "script" 3 =
      .error (.compile
        ⟨"Unknown script command. Expected one of: narration, hero_think, say, rename_say, choice",
         "in.yaml", "script[0]"⟩) := by
  simp [compile_script_block, compile_cmds, compile_one, alookup]
  rfl

/-- C2 amended: the script compiler knows only the five commands
narration, hero_think, say, rename_say and choice; a node tagged `bgm`
or `sfx` — whatever its value, registry, path or nesting level — fails
with the unknown-command CompileError listing the accepted tags instead
of emitting an audio line. -/
theorem C2_unknown_command_amended ( sim : SimFn) (maps : EnumMaps)
    (input_file base_path : String) (level : Nat) (v : Yaml) :
    compile_script_block sim (.list [.map [("bgm", v)]]) maps input_file base_path level =
      .error (.compile
        ⟨"Unknown script command. Expected one of: narration, hero_think, say, rename_say, choice",
         input_file, base_path ++ "[0]"⟩) ∧
    compile_script_block sim (.list [.map [("sfx", v)]]) maps input_file base_path level =
      .error (.compile
        ⟨"Unknown script command. Expected one of: narration, hero_think, say, rename_say, choice",
         input_file, base_path ++ "[0]"⟩) := by
  constructor <;>
    · simp [compile_script_block, compile_cmds, compile_one, alookup,
        Bind.bind, Except.bind, Pure.pure, Except.pure]
      rw [String.append_assoc, String.append_assoc]
      rfl

/-- Witness for C2 amended at the `sfx` tag with a concrete value. -/
theorem C2_unknown_command_amended_witness :
    compile_script_block sim0 (.list [.map [("sfx", .str "doorbell")]]) maps0
      "in.yaml" "script" 3 =
      .error (.compile
        ⟨"Unknown script command. Expected one of: narration, hero_think, say, rename_say, choice",
         "in.yaml", "script" ++ "[0]"⟩) :=
  (C2_unknown_command_amended sim0 maps0 "in.yaml" "script" 3 (.str "doorbell")).2

/-- C1 counterexample: a trigger carrying `facility` together with
`location` (but no `town`) is rejected with the missing-field
CompileError on the trigger, where the claim says it is accepted. -/
theorem C1_trigger_location_counterexample :
    generate_event sim0 (.map [("event_name", .str "e"),
      ("trigger", .map [("facility", .str "Inn"), ("location", .str "Kyoto")])])
      maps0 "in.yaml" =
      .error (.compile
        ⟨"trigger requires " ++ quo "town" ++ " and " ++ quo "facility" ++ ".",
         "in.yaml", "trigger"⟩) := by
  rfl

/-- C1 amended: `generate_event` recognizes only `town` (not `location`):
with `event_name` present and the trigger a dict, the missing-field
CompileError on the trigger is raised exactly when `town` or `facility`
is absent; when both are present the compiler proceeds to resolving
them and assembling the event. -/
theorem C1_trigger_requires_town_amended ( sim : SimFn) (maps : EnumMaps)
    (input_file : String) (kvs tkvs : List (String × Yaml)) (env : Yaml)
    (hev : alookup "event_name" kvs = some env)
    (htr : alookup "trigger" kvs = some (.map tkvs)) :
    ((alookup "town" tkvs = none ∨ alookup "facility" tkvs = none) →
      generate_event sim (.map kvs) maps input_file =
        .error (.compile
          ⟨"trigger requires " ++ quo "town" ++ " and " ++ quo "facility" ++ ".",
           input_file, "trigger"⟩)) ∧
    (∀ townv facv, alookup "town" tkvs = some townv →
      alookup "facility" tkvs = some facv →
      generate_event sim (.map kvs) maps input_file = (do
        let town ← EnumMaps.town sim maps townv input_file "trigger.town"
        let facility ← EnumMaps.facility sim maps facv input_file "trigger.facility"
        let require_block ← compile_require sim
          ((alookup "require" kvs).getD .nil) maps input_file
        let script_block ← compile_script_block sim
          ((alookup "script" kvs).getD (.list [])) maps input_file "script" 3
        pure (event_envelope (pyStr env)
          (pyTruthy ((alookup "once" kvs).getD (.bool true)))
          town facility require_block script_block))) := by
  constructor
  · intro h
    rcases h with h | h
    · simp only [generate_event, hev, htr, h]
    · rcases htown : alookup "town" tkvs with _ | tv
      · simp only [generate_event, hev, htr, htown]
      · simp only [generate_event, hev, htr, htown, h]
  · intro townv facv ht hf
    simp only [generate_event, hev, htr, ht, hf]

/-- Witness for C1 amended: a trigger with `facility` but neither `town`
nor `location` fails with the missing-field error on the trigger. -/
theorem C1_trigger_requires_town_witness :
    generate_event sim0 (.map [("event_name", .str "e"),
      ("trigger", .map [("facility", .str "Inn")])]) maps0 "in.yaml" =
      .error (.compile
        ⟨"trigger requires " ++ quo "town" ++ " and " ++ quo "facility" ++ ".",
         "in.yaml", "trigger"⟩) :=
  (C1_trigger_requires_town_amended sim0 maps0 "in.yaml"
    [("event_name", .str "e"), ("trigger", .map [("facility", .str "Inn")])]
    [("facility", .str "Inn")] (.str "e") rfl rfl).1 (Or.inl rfl)

/-- C10: a document with no `script` key compiles exactly as if it
carried `script: []`, and any successful compile of such a document
yields the envelope with a present but empty script block. -/
theorem C10_script_defaults_empty ( sim : SimFn) (maps : EnumMaps)
    (input_file : String) (kvs : List (String × Yaml))
    (hs : alookup "script" kvs = none) :
    generate_event sim (.map kvs) maps input_file =
      generate_event sim (.map (kvs ++ [("script", Yaml.list [])])) maps input_file ∧
    (∀ s, generate_event sim (.map kvs) maps input_file = .ok s →
      ∃ en onc tw fa rq, s = event_envelope en onc tw fa rq "") := by
  have e1 : alookup "event_name" (kvs ++ [("script", Yaml.list [])]) =
      alookup "event_name" kvs :=
    alookup_append_single_ne _ _ _ _ (by decide)
  have e2 : alookup "trigger" (kvs ++ [("script", Yaml.list [])]) =
      alookup "trigger" kvs :=
    alookup_append_single_ne _ _ _ _ (by decide)
  have e3 : alookup "once" (kvs ++ [("script", Yaml.list [])]) =
      alookup "once" kvs :=
    alookup_append_single_ne _ _ _ _ (by decide)
  have e4 : alookup "require" (kvs ++ [("script", Yaml.list [])]) =
      alookup "require" kvs :=
    alookup_append_single_ne _ _ _ _ (by decide)
  have e5 : alookup "script" (kvs ++ [("script", Yaml.list [])]) =
      some (Yaml.list []) :=
    alookup_append_single_self _ _ _ hs
  constructor
  · simp only [generate_event]
    rw [e1, e2, e3, e4, e5, hs]
    rfl
  · intro s hok
    simp only [generate_event] at hok
    rcases hev : alookup "event_name" kvs with _ | env
    · simp [hev] at hok
    · rcases htr : alookup "trigger" kvs with _ | trig
      · simp [hev, htr] at hok
      · cases trig with
        | map tkvs =>
            rcases htown : alookup "town" tkvs with _ | tv
            · simp [hev, htr, htown] at hok
            · rcases hfac : alookup "facility" tkvs with _ | fv
              · simp [hev, htr, htown, hfac] at hok
              · simp only [hev, htr, htown, hfac] at hok
                have hsb : compile_script_block sim
                    ((alookup "script" kvs).getD (Yaml.list [])) maps input_file
                    "script" 3 = .ok "" := by
                  rw [hs]
                  simp [compile_script_block, compile_cmds]
                rw [hsb] at hok
                rcases except_bind_ok _ _ _ hok with ⟨tw, htw, hok2⟩
                rcases except_bind_ok _ _ _ hok2 with ⟨fa, hfa, hok3⟩
                rcases except_bind_ok _ _ _ hok3 with ⟨rq, hrq, hok4⟩
                rcases except_bind_ok _ _ _ hok4 with ⟨sb, hsb2, hok5⟩
                simp at hsb2
                subst hsb2
                simp [Pure.pure, Except.pure] at hok5
                exact ⟨_, _, tw, fa, rq, hok5.symm⟩
        | str a => simp [hev, htr] at hok
        | int a => simp [hev, htr] at hok
        | bool a => simp [hev, htr] at hok
        | nil => simp [hev, htr] at hok
        | list a => simp [hev, htr] at hok

/-- Witness for C10 at a concrete document with no `script` field. -/
theorem C10_script_defaults_empty_witness :
    generate_event sim0 (.map [("event_name", .str "e"),
      ("trigger", .map [("town", .str "Kyoto"), ("facility", .str "Inn")])])
      maps0 "in.yaml" =
      generate_event sim0 (.map ([("event_name", .str "e"),
        ("trigger", .map [("town", .str "Kyoto"), ("facility", .str "Inn")])] ++
        [("script", Yaml.list [])])) maps0 "in.yaml" :=
  (C10_script_defaults_empty sim0 maps0 "in.yaml"
    [("event_name", .str "e"),
     ("trigger", .map [("town", .str "Kyoto"), ("facility", .str "Inn")])] rfl).1

/-- An option object carrying `label` and `do`, as the Choice claim
requires of every option. -/
def mk_option (a : Yaml × Yaml) : Yaml := .map [("label", a.1), ("do", a.2)]

/-- Stated from the spec: the single selection line of a Choice, listing
all labels in their original order. -/
def choice_selection_line (labels : List String) (level : Nat) : String :=
  dx_line level ("選擇:(" ++ String.join (labels.map fun lb => "[[" ++ lb ++ "]]") ++ ")")

/-- Stated from the spec: the branch blocks of a Choice, one per label in
order — a branch-open line at the choice level, the compiled body of
that option, and a closing brace back at the choice's level. -/
def choice_branches_spec (labels : List String) (body : Nat → String)
    (oi level : Nat) : String :=
  match labels with
  | [] => ""
  | lb :: rest =>
      dx_line level ("分歧:([[" ++ lb ++ "]])" ++ "\x7b") ++ body oi ++
        dx_line level "\x7d" ++ choice_branches_spec rest body (oi + 1) level

/-- The validation loop accepts well-formed options and collects their
labels in order. -/
theorem collect_labels_map (os : List (Yaml × Yaml)) (oi : Nat) (input_file p : String) :
    collect_labels (os.map mk_option) oi input_file p =
      .ok (os.map fun a => pyStr a.1) := by
  induction os generalizing oi with
  | nil => simp [collect_labels]
  | cons a rest ih => simp [collect_labels, mk_option, alookup, ih]

/-- The emission loop produces exactly the branch blocks of the spec,
given the compilation results of the option bodies one level deeper. -/
theorem compile_options_map ( sim : SimFn) (maps : EnumMaps) (input_file p : String)
    (level : Nat) (body : Nat → String) :
    ∀ (os : List (Yaml × Yaml)) (oi : Nat),
      (∀ j (hj : j < os.length),
        compile_script_block sim (os.get ⟨j, hj⟩).2 maps input_file
          (p ++ ".choice.options[" ++ toString (oi + j) ++ "]" ++ ".do") (level + 1) =
          .ok (body (oi + j))) →
      compile_options sim (os.map mk_option) oi maps input_file p level =
        .ok (choice_branches_spec (os.map fun a => pyStr a.1) body oi level) := by
  intro os
  induction os with
  | nil =>
      intro oi h
      simp [compile_options, choice_branches_spec]
  | cons a rest ih =>
      intro oi h
      have h0 := h 0 (by simp)
      simp only [Nat.add_zero, List.get] at h0
      have hrest := ih (oi + 1) (fun j hj => by
        have hj' : j + 1 < (a :: rest).length := by simpa using Nat.succ_lt_succ hj
        have hstep := h (j + 1) hj'
        have e : oi + (j + 1) = oi + 1 + j := by omega
        rw [e] at hstep
        simpa [List.get] using hstep)
      simp [compile_options, mk_option, alookup, h0, hrest, choice_branches_spec,
        Bind.bind, Except.bind, Pure.pure, Except.pure]

/-- C3: a Choice whose N options each carry `label` and `do`, and whose
bodies compile one level deeper to the given results, compiles to
exactly one selection line listing all N labels in original order
followed by the N branch blocks in order, each body one level deeper
and each branch closed by a brace at the Choice's level. -/
theorem C3_choice_structure ( sim : SimFn) (maps : EnumMaps) (input_file p : String)
    (level : Nat) (os : List (Yaml × Yaml)) (body : Nat → String)
    (hbody : ∀ j (hj : j < os.length),
      compile_script_block sim (os.get ⟨j, hj⟩).2 maps input_file
        (p ++ ".choice.options[" ++ toString j ++ "]" ++ ".do") (level + 1) =
        .ok (body j)) :
    compile_one sim (.map [("choice", .map [("options", .list (os.map mk_option))])])
      maps input_file p level =
      .ok (choice_selection_line (os.map fun a => pyStr a.1) level ++
        choice_branches_spec (os.map fun a => pyStr a.1) body 0 level) := by
  have hopts := compile_options_map sim maps input_file p level body os 0
    (fun j hj => by simpa using hbody j hj)
  have hlab := collect_labels_map os 0 input_file p
  simp [compile_one, alookup, hlab, hopts, choice_selection_line,
    Bind.bind, Except.bind, Pure.pure, Except.pure]

/-- Witness for C3 at a concrete two-option choice with empty bodies. -/
theorem C3_choice_structure_witness :
    compile_one sim0 (.map [("choice", .map [("options", .list
      ([(Yaml.str "Yes", Yaml.list []), (Yaml.str "No", Yaml.list [])].map mk_option))])])
      maps0 "in.yaml" "script[0]" 3 =
      .ok (choice_selection_line ["Yes", "No"] 3 ++
        choice_branches_spec ["Yes", "No"] (fun _ => "") 0 3) :=
  C3_choice_structure sim0 maps0 "in.yaml" "script[0]" 3
    [(Yaml.str "Yes", Yaml.list []), (Yaml.str "No", Yaml.list [])] (fun _ => "")
    (fun j hj => by
      rcases j with _ | _ | j
      · simp [compile_script_block, compile_cmds]
      · simp [compile_script_block, compile_cmds]
      · exact absurd hj (by simp))

end DxEventgen
